import Mathlib

/-!
Verification development for the NL2SQL demo repository
(`nl2sql_demo.py`, `app.py`, `mvp_app.py`).

The development shallowly embeds the three data generators, the SQLite
table-loading step and the `NL2SQLEngine` translation pipeline.  Python's
global pseudo-random generator (the seeded Mersenne twister of the standard
library, which is not part of the repository) is abstracted as an arbitrary
deterministic state machine `PRNG`; currency values (Python floats that the
source always rounds to two decimal places) are modelled as rationals with
an explicit two-decimal rounding function; `order_date` values are kept as
their day offset from 2023-01-01, since the calendar formatting done by
`datetime.strftime` is a bijective presentation-layer step outside every
claim.
-/

namespace NL2SQLDemo

/-- Two-decimal rounding, the model of Python's `round(x, 2)` on the
currency values produced by the generators: scale by 100, round to the
nearest integer, scale back.  (`Rat.floor` keeps the definition kernel
computable; the tie-breaking mode is irrelevant to every claim.) -/
def round2 (x : ℚ) : ℚ := (((x * 100 + 1/2).floor : ℤ) : ℚ) / 100

/-- Abstract deterministic pseudo-random generator: a seeding function and a
state-transition step producing one raw natural number per draw.  Python's
`random` module (global Mersenne twister) is one instance; every claim is
proved for an arbitrary instance. -/
structure PRNG (σ : Type) where
  seedFn : Nat → σ
  next : σ → Nat × σ

/-- Model of `random.randint(a, b)` (inclusive bounds): one raw draw mapped
into `[a, b]`. -/
def pyRandint {σ : Type} (g : PRNG σ) (a b : Nat) (s : σ) : Nat × σ :=
  let (v, s') := g.next s
  (a + v % (b - a + 1), s')

/-- Model of `random.uniform(a, b)`: one raw draw mapped to a rational in
`[a, b]`. -/
def pyUniform {σ : Type} (g : PRNG σ) (a b : ℚ) (s : σ) : ℚ × σ :=
  let (v, s') := g.next s
  (a + (b - a) * ((v % 1001 : Nat) : ℚ) / 1000, s')

/-- Model of `random.choice(l)` on a nonempty list of strings: one raw draw
selecting an element. -/
def pyChoice {σ : Type} (g : PRNG σ) (l : List String) (s : σ) : String × σ :=
  let (v, s') := g.next s
  (l.getD (v % l.length) "", s')

/-- A concrete `PRNG` instance serving a fixed stream of raw values, used to
instantiate the universally quantified theorems on explicit inputs. -/
def streamPRNG (f : Nat → Nat) : PRNG Nat :=
  { seedFn := fun _ => 0, next := fun i => (f i, i + 1) }

/-! ### Decimal rendering of order identifiers

The generators build `order_id` with the f-strings `f'ORD{10000 + i}'`
(nl2sql_demo.py) and `f'ORD{i:05d}'` (app.py, mvp_app.py).  Decimal
rendering of a nonnegative integer is embedded below, together with a
parsing function used to prove the rendered identifiers pairwise distinct. -/

/-- The decimal digit characters, the model of `str(d)` for `d < 10`. -/
def digChar : Nat → Char
  | 0 => '0' | 1 => '1' | 2 => '2' | 3 => '3' | 4 => '4'
  | 5 => '5' | 6 => '6' | 7 => '7' | 8 => '8' | _ => '9'

/-- Little-endian digit characters of `n`, with `fuel` bounding recursion
depth (any `fuel ≥ n` is enough). -/
def decLE : Nat → Nat → List Char
  | 0, _ => []
  | fuel + 1, n => if n = 0 then [] else digChar (n % 10) :: decLE fuel (n / 10)

/-- Decimal character rendering of a natural number, the model of Python's
`str(i)` / `f'{i}'` for nonnegative `i`. -/
def natDecChars (n : Nat) : List Char :=
  if n = 0 then ['0'] else (decLE n n).reverse

/-- String form of `natDecChars`. -/
def natDecStr (n : Nat) : String := ⟨natDecChars n⟩

/-- Zero padding to width 5, the model of the format spec `05d`. -/
def pad5 (cs : List Char) : List Char :=
  List.replicate (5 - cs.length) '0' ++ cs

/-- Evaluate a list of digit characters back to a natural number; a left
inverse of decimal rendering. -/
def parseVal (cs : List Char) : Nat :=
  cs.foldl (fun a c => 10 * a + (c.toNat - 48)) 0

lemma digChar_toNat_sub (d : Nat) (h : d < 10) : (digChar d).toNat - 48 = d := by
  interval_cases d <;> rfl

lemma foldr_decLE (fuel : Nat) :
    ∀ n : Nat, n ≤ fuel →
      (decLE fuel n).foldr (fun c a => 10 * a + (c.toNat - 48)) 0 = n := by
  induction fuel with
  | zero => intro n hn; interval_cases n; rfl
  | succ f ih =>
      intro n hn
      by_cases h0 : n = 0
      · subst h0; simp [decLE]
      · have hdiv : n / 10 ≤ f := by
          have : n / 10 < n := Nat.div_lt_self (Nat.pos_of_ne_zero h0) (by norm_num)
          omega
        have hrec := ih (n / 10) hdiv
        simp only [decLE, h0, if_false, List.foldr_cons, hrec]
        rw [digChar_toNat_sub (n % 10) (Nat.mod_lt _ (by norm_num))]
        omega

lemma parseVal_natDecChars (n : Nat) : parseVal (natDecChars n) = n := by
  by_cases h0 : n = 0
  · subst h0; rfl
  · unfold natDecChars parseVal
    rw [if_neg h0, List.foldl_reverse]
    have := foldr_decLE n n le_rfl
    convert this using 2

lemma parseVal_pad5 (cs : List Char) : parseVal (pad5 cs) = parseVal cs := by
  unfold pad5 parseVal
  rw [List.foldl_append]
  congr 1
  generalize 5 - cs.length = k
  induction k with
  | zero => rfl
  | succ m ih => simpa [List.replicate_succ] using ih

/-! ### String scanning utilities

These embed the Python string operations the translator relies on:
`str.lower`, the `in` substring test, and the regular-expression search
`re.search(r'top\s+(\d+)', question_lower)`. -/

/-- Model of Python's `str.lower()` (characterwise lowering; the questions
and keywords involved are ASCII). -/
def lowerStr (s : String) : String := ⟨s.data.map Char.toLower⟩

/-- `startsL pat cs` tests whether `pat` is a leading segment of `cs`. -/
def startsL : List Char → List Char → Bool
  | [], _ => true
  | _ :: _, [] => false
  | a :: as, b :: bs => a == b && startsL as bs

/-- `containsL pat cs` tests whether `pat` occurs contiguously in `cs`; the
model of Python's `pat in cs`. -/
def containsL (pat : List Char) : List Char → Bool
  | [] => startsL pat []
  | c :: cs => startsL pat (c :: cs) || containsL pat cs

/-- `containsB s pat` : the substring test on strings. -/
def containsB (s pat : String) : Bool := containsL pat.data s.data

/-- The characters matched by the regex class `\s` (ASCII). -/
def isPySpace (c : Char) : Bool :=
  c == ' ' || c == '\t' || c == '\n' || c == '\r' || c == '\x0b' || c == '\x0c'

/-- The characters matched by the regex class `\d` (ASCII). -/
def isDigitC (c : Char) : Bool := '0' ≤ c && c ≤ '9'

/-- Try to match the regex `top\s+(\d+)` anchored at the head of the list,
returning the captured digit group. -/
def matchTopAt : List Char → Option (List Char)
  | 't' :: 'o' :: 'p' :: rest =>
      let p1 := rest.span isPySpace
      if p1.1.isEmpty then none
      else
        let p2 := p1.2.span isDigitC
        if p2.1.isEmpty then none else some p2.1
  | _ => none

/-- Leftmost unanchored match of `top\s+(\d+)`, the model of
`re.search(r'top\s+(\d+)', question_lower)` returning `group(1)`. -/
def searchTop : List Char → Option (List Char)
  | [] => none
  | c :: cs =>
      match matchTopAt (c :: cs) with
      | some ds => some ds
      | none => searchTop cs

/-- The LIMIT value used by the top-products rule:
`match.group(1) if match else "5"`. -/
def limitOf (ql : String) : String :=
  match searchTop ql.data with
  | some ds => ⟨ds⟩
  | none => "5"

/-! ### The rule-based translator (`NL2SQLEngine.generate_sql_rule_based`) -/

/-- SQL template of the total-sales-by-region rule. -/
def sqlRegion : String :=
  "SELECT region, SUM(total_sales) as total_sales FROM sales GROUP BY region ORDER BY total_sales DESC"

/-- Leading fixed part of the top-N-products SQL template; the extracted
LIMIT value is appended, mirroring the source f-string. -/
def sqlTopStem : String :=
  "SELECT product, SUM(quantity) as total_quantity FROM sales GROUP BY product ORDER BY total_quantity DESC LIMIT "

/-- SQL template of the top-N-products rule at a given LIMIT string. -/
def sqlTop (limit : String) : String := sqlTopStem ++ limit

/-- SQL template of the monthly-trend rule. -/
def sqlMonthly : String :=
  "SELECT strftime('%Y-%m', order_date) as month, SUM(total_sales) as monthly_sales FROM sales GROUP BY month ORDER BY month"

/-- SQL template of the profit-by-category rule. -/
def sqlProfit : String :=
  "SELECT category, SUM(profit) as total_profit FROM sales GROUP BY category ORDER BY total_profit DESC"

/-- The default preview query. -/
def sqlPreview : String := "SELECT * FROM sales LIMIT 10"

/-- Embedding of `NL2SQLEngine.generate_sql_rule_based`: lowercase the
question, then test the ordered `if/elif` keyword patterns, first match
wins. -/
def generate_sql_rule_based (question : String) : String :=
  let ql := lowerStr question
  if containsB ql "total sales" && containsB ql "region" then
    sqlRegion
  else if containsB ql "top" && containsB ql "product" then
    sqlTop (limitOf ql)
  else if containsB ql "monthly" || containsB ql "trend" then
    sqlMonthly
  else if containsB ql "profit" && containsB ql "category" then
    sqlProfit
  else
    sqlPreview

/-! ### The delegated (GPT) path and the translation pipeline in `main` -/

/-- Cleanup applied to the delegate's response text:
`sql.strip()` then removal of code-fence markup, as in
`generate_sql_with_gpt`. -/
def cleanSql (s : String) : String :=
  (((s.trim).replace "```sql" "").replace "```" "").trim

/-- Embedding of `NL2SQLEngine.generate_sql_with_gpt`.  The outcome of the
external `openai.ChatCompletion.create` call is an explicit input
`delegate`: `Except.ok content` for a successful response, `Except.error e`
for a raised exception.  The result is the `(sql, error)` pair returned by
the source. -/
def generate_sql_with_gpt (apiKey : String) (delegate : Except String String) :
    Option String × Option String :=
  if apiKey = "" then
    (none, some "API key not provided")
  else
    match delegate with
    | Except.ok content => (some (cleanSql content), none)
    | Except.error e => (none, some ("GPT Error: " ++ e))

/-- The translation method reported by `main` (`"AI-Generated"`,
`"Rule-Based"`, `"Rule-Based (Fallback)"`). -/
inductive Method where
  | aiGenerated
  | ruleBased
  | ruleBasedFallback
deriving DecidableEq

/-- Embedding of the SQL-generation pipeline of `main` in `nl2sql_demo.py`:
the `use_ai and api_key` branch chooses between the GPT path and the
rule-based path, and a non-`None` error triggers the rule-based fallback.
An empty `apiKey` models the falsy empty text input. -/
def translateMain (question : String) (useAI : Bool) (apiKey : String)
    (delegate : Except String String) : String × Method :=
  let step :=
    if useAI && !(apiKey == "") then
      let r := generate_sql_with_gpt apiKey delegate
      (r.1, r.2, Method.aiGenerated)
    else
      (some (generate_sql_rule_based question), none, Method.ruleBased)
  match step with
  | (_, some _, _) => (generate_sql_rule_based question, Method.ruleBasedFallback)
  | (s, none, m) => (s.getD "", m)

/-! ### The inline rule chain of `main` in `app.py`

`app.py` has no engine class: `main` lowercases the question and runs an
inline `if/elif` chain with the same ordered keyword tests as
`nl2sql_demo.py`, but every branch assigns a fixed triple-quoted SQL
literal — in particular the top/product branch hardcodes `LIMIT 5` and
performs no numeric extraction.  The literals are reproduced below with
their newlines and indentation. -/

/-- SQL literal of the total-sales/region branch of `main` in `app.py`. -/
def appSqlRegion : String :=
  "\n            SELECT region, SUM(total_sales) as total_sales \n            FROM sales \n            GROUP BY region \n            ORDER BY total_sales DESC\n            "

/-- SQL literal of the top/product branch of `main` in `app.py`: the LIMIT
value 5 is part of the literal. -/
def appSqlTop : String :=
  "\n            SELECT product, SUM(quantity) as total_quantity \n            FROM sales \n            GROUP BY product \n            ORDER BY total_quantity DESC \n            LIMIT 5\n            "

/-- SQL literal of the monthly/trend branch of `main` in `app.py`. -/
def appSqlMonthly : String :=
  "\n            SELECT strftime('%Y-%m', order_date) as month, \n                   SUM(total_sales) as monthly_sales \n            FROM sales \n            GROUP BY month \n            ORDER BY month\n            "

/-- SQL literal of the profit/category branch of `main` in `app.py`. -/
def appSqlProfit : String :=
  "\n            SELECT category, SUM(profit) as total_profit \n            FROM sales \n            GROUP BY category \n            ORDER BY total_profit DESC\n            "

/-- Embedding of the inline rule-based SQL generation of `main` in
`app.py`. -/
def app_main_rule_sql (question : String) : String :=
  let ql := lowerStr question
  if containsB ql "total sales" && containsB ql "region" then
    appSqlRegion
  else if containsB ql "top" && containsB ql "product" then
    appSqlTop
  else if containsB ql "monthly" || containsB ql "trend" then
    appSqlMonthly
  else if containsB ql "profit" && containsB ql "category" then
    appSqlProfit
  else
    "SELECT * FROM sales LIMIT 10"

/-! ### Data model: the three generated-record variants -/

/-- One synthetic sales transaction of `generate_sales_data` in
`nl2sql_demo.py`.  `order_date_days` holds the day offset from 2023-01-01
(the `strftime` calendar formatting is outside the claims). -/
structure OrderRecord where
  order_id : String
  customer_id : String
  order_date_days : Nat
  product : String
  category : String
  region : String
  quantity : Nat
  unit_price : ℚ
  total_sales : ℚ
  cost_price : ℚ
  profit : ℚ
  payment_method : String
  customer_type : String
  discount : ℚ
deriving DecidableEq

/-- One synthetic sales transaction of `generate_sales_data` in `app.py`
(no `cost_price` field; `profit` uses a drawn margin factor). -/
structure OrderRecordApp where
  order_id : String
  customer_id : String
  order_date_days : Nat
  product : String
  category : String
  region : String
  quantity : Nat
  unit_price : ℚ
  total_sales : ℚ
  profit : ℚ
  payment_method : String
  customer_type : String
  discount : ℚ
deriving DecidableEq

/-- One synthetic sales transaction of `create_sample_data` in
`mvp_app.py`. -/
structure OrderRecordMvp where
  order_id : String
  customer_id : String
  order_date_days : Nat
  product : String
  region : String
  quantity : Nat
  price : ℚ
  total_sales : ℚ
deriving DecidableEq

/-! ### The `nl2sql_demo.py` generator -/

/-- Record built for loop index `i` in `generate_sales_data` of
`nl2sql_demo.py`, with the pseudo-random draws in source order. -/
def genRecordNl {σ : Type} (g : PRNG σ) (i : Nat) (s : σ) : OrderRecord × σ :=
  let d1 := pyRandint g 0 365 s
  let d2 := pyRandint g 1 5 d1.2
  let d3 := pyUniform g 50 2000 d2.2
  let unit_price := round2 d3.1
  let d4 := pyUniform g (2/5) (7/10) d3.2
  let cost_price := round2 (unit_price * d4.1)
  let d5 := pyRandint g 1000 9999 d4.2
  let d6 := pyChoice g ["Laptop Pro", "Phone X", "Tablet Air", "Monitor Ultra",
    "Keyboard Elite", "Mouse Pro", "Headphones Max", "Charger Fast",
    "Case Premium", "Stand Adjustable"] d5.2
  let d7 := pyChoice g ["Electronics", "Accessories", "Computers", "Mobile"] d6.2
  let d8 := pyChoice g ["North America", "Europe", "Asia Pacific", "Latin America",
    "Middle East"] d7.2
  let d9 := pyChoice g ["Credit Card", "PayPal", "Bank Transfer", "Cash"] d8.2
  let d10 := pyChoice g ["New", "Returning", "VIP"] d9.2
  let d11 := pyUniform g 0 (3/10) d10.2
  ({ order_id := "ORD" ++ natDecStr (10000 + i)
     customer_id := "CUST" ++ natDecStr d5.1
     order_date_days := d1.1
     product := d6.1
     category := d7.1
     region := d8.1
     quantity := d2.1
     unit_price := unit_price
     total_sales := round2 ((d2.1 : ℚ) * unit_price)
     cost_price := cost_price
     profit := round2 ((unit_price - cost_price) * (d2.1 : ℚ))
     payment_method := d9.1
     customer_type := d10.1
     discount := round2 d11.1 }, d11.2)

/-- The `for i in range(n_rows)` loop of `generate_sales_data` in
`nl2sql_demo.py`, threading the pseudo-random state: `count` records from
loop index `i` upward. -/
def genListNl {σ : Type} (g : PRNG σ) : Nat → Nat → σ → List OrderRecord × σ
  | 0, _, s => ([], s)
  | count + 1, i, s =>
      let r := genRecordNl g i s
      let rest := genListNl g count (i + 1) r.2
      (r.1 :: rest.1, rest.2)

/-- The record-construction part of `generate_sales_data` in
`nl2sql_demo.py` (the loop building `data`): no seeding, the ambient
pseudo-random state `s` is consumed; `range(n_rows)` is empty when
`n_rows ≤ 0`.  The trailing DataFrame post-processing of the source,
together with the failure path it opens on an empty row list, is embedded
on top of this in `generate_sales_dataE`. -/
def generate_sales_data {σ : Type} (g : PRNG σ) (n_rows : Int) (s : σ) :
    List OrderRecord × σ :=
  genListNl g n_rows.toNat 0 s

/-- The full `generate_sales_data` call of `nl2sql_demo.py` with Python's
exception channel made explicit, including the DataFrame post-processing of
the final lines: `df = pd.DataFrame(data)` followed by
`df['order_date'] = pd.to_datetime(df['order_date'])`.  When the built row
list is empty — exactly when `n_rows ≤ 0` — the DataFrame has no columns,
so reading `df['order_date']` on the right-hand side of that assignment
raises `KeyError`; otherwise the conversion only changes the date
representation (the embedded records already carry day offsets) and the
records are returned unchanged. -/
def generate_sales_dataE {σ : Type} (g : PRNG σ) (n_rows : Int) (s : σ) :
    Except String (List OrderRecord × σ) :=
  let built := generate_sales_data g n_rows s
  if built.1.isEmpty then Except.error "KeyError: 'order_date'"
  else Except.ok built

/-! ### The `app.py` generator -/

/-- Record built for loop index `i` in `generate_sales_data` of `app.py`:
`order_date` is cyclic (`i % 365`), and `profit` multiplies the drawn
quantity and price by a freshly drawn margin factor
(`random.uniform(0.2, 0.5)`). -/
def genRecordApp {σ : Type} (g : PRNG σ) (i : Nat) (s : σ) : OrderRecordApp × σ :=
  let d1 := pyRandint g 1 5 s
  let d2 := pyUniform g 50 1000 d1.2
  let unit_price := round2 d2.1
  let d3 := pyRandint g 1000 9999 d2.2
  let d4 := pyChoice g ["Laptop Pro", "Phone X", "Tablet Air", "Monitor Ultra",
    "Keyboard Elite"] d3.2
  let d5 := pyChoice g ["Electronics", "Accessories", "Computers", "Mobile"] d4.2
  let d6 := pyChoice g ["North America", "Europe", "Asia Pacific", "Latin America",
    "Middle East"] d5.2
  let d7 := pyUniform g (1/5) (1/2) d6.2
  let d8 := pyChoice g ["Credit Card", "PayPal", "Bank Transfer"] d7.2
  let d9 := pyChoice g ["New", "Returning"] d8.2
  let d10 := pyUniform g 0 (1/5) d9.2
  ({ order_id := "ORD" ++ (⟨pad5 (natDecChars i)⟩ : String)
     customer_id := "CUST" ++ natDecStr d3.1
     order_date_days := i % 365
     product := d4.1
     category := d5.1
     region := d6.1
     quantity := d1.1
     unit_price := unit_price
     total_sales := round2 ((d1.1 : ℚ) * unit_price)
     profit := round2 ((d1.1 : ℚ) * unit_price * d7.1)
     payment_method := d8.1
     customer_type := d9.1
     discount := round2 d10.1 }, d10.2)

/-- The generation loop of `generate_sales_data` in `app.py`. -/
def genListApp {σ : Type} (g : PRNG σ) : Nat → Nat → σ → List OrderRecordApp × σ
  | 0, _, s => ([], s)
  | count + 1, i, s =>
      let r := genRecordApp g i s
      let rest := genListApp g count (i + 1) r.2
      (r.1 :: rest.1, rest.2)

/-- `generate_sales_data` of `app.py` with the literal seed generalized to a
parameter: the source begins with `random.seed(seed)`, discarding the prior
global pseudo-random state `s`. -/
def generateAppSeeded {σ : Type} (g : PRNG σ) (seed : Nat) (n_rows : Int)
    (_s : σ) : List OrderRecordApp × σ :=
  genListApp g n_rows.toNat 0 (g.seedFn seed)

/-- Embedding of `generate_sales_data` in `app.py`: `random.seed(42)` then
the generation loop. -/
def generate_sales_data_app {σ : Type} (g : PRNG σ) (n_rows : Int) (s : σ) :
    List OrderRecordApp × σ :=
  generateAppSeeded g 42 n_rows s

/-- `generate_sales_data` of `app.py` with the exception channel explicit:
after the loop its body is just `return pd.DataFrame(data)`, and
`pd.DataFrame` accepts the empty list, so — unlike the `nl2sql_demo.py`
variant, which goes on to read a column of the resulting frame — every
call returns normally. -/
def generate_sales_data_appE {σ : Type} (g : PRNG σ) (n_rows : Int) (s : σ) :
    Except String (List OrderRecordApp × σ) :=
  Except.ok (generate_sales_data_app g n_rows s)

/-! ### The `mvp_app.py` generator -/

/-- Record built for loop index `i` in `create_sample_data` of `mvp_app.py`;
`total_sales` is initialized to `0` in the dict literal and computed on the
DataFrame column afterwards. -/
def genRecordMvp {σ : Type} (g : PRNG σ) (i : Nat) (s : σ) : OrderRecordMvp × σ :=
  let d1 := pyRandint g 1000 9999 s
  let d2 := pyChoice g ["Laptop", "Phone", "Tablet", "Monitor"] d1.2
  let d3 := pyChoice g ["North", "South", "East", "West"] d2.2
  let d4 := pyRandint g 1 5 d3.2
  let d5 := pyUniform g 100 2000 d4.2
  ({ order_id := "ORD" ++ (⟨pad5 (natDecChars i)⟩ : String)
     customer_id := "CUST" ++ natDecStr d1.1
     order_date_days := i % 365
     product := d2.1
     region := d3.1
     quantity := d4.1
     price := round2 d5.1
     total_sales := 0 }, d5.2)

/-- The record-building loop of `create_sample_data`. -/
def genListMvp {σ : Type} (g : PRNG σ) : Nat → Nat → σ → List OrderRecordMvp × σ
  | 0, _, s => ([], s)
  | count + 1, i, s =>
      let r := genRecordMvp g i s
      let rest := genListMvp g count (i + 1) r.2
      (r.1 :: rest.1, rest.2)

/-- Embedding of `create_sample_data` in `mvp_app.py`: build the rows with
`total_sales = 0`, then set the whole column with
`df['total_sales'] = df['quantity'] * df['price']`. -/
def create_sample_data {σ : Type} (g : PRNG σ) (rows : Int) (s : σ) :
    List OrderRecordMvp × σ :=
  let built := genListMvp g rows.toNat 0 s
  (built.1.map (fun r => { r with total_sales := (r.quantity : ℚ) * r.price }),
   built.2)

/-! ### The tabular store (`setup_database` and the `to_sql` loads) -/

/-- The in-memory store holding the single `sales` table. -/
structure TabularStore (α : Type) where
  sales : List α

/-- Model of `df.to_sql('sales', conn, if_exists='replace')` (as called in
`setup_database` of `nl2sql_demo.py`): the prior content of the table is
replaced wholesale. -/
def toSqlReplace {α : Type} (_st : TabularStore α) (records : List α) :
    TabularStore α :=
  { sales := records }

/-- Model of `sqlite3.connect(':memory:')`: a fresh empty store. -/
def connectMemory {α : Type} : TabularStore α := { sales := [] }

/-- Embedding of `setup_database` in `nl2sql_demo.py` (and of the fresh
connect-then-load sequence in `mvp_app.py`): a new in-memory connection is
created and the records are loaded into it. -/
def setup_database {α : Type} (df : List α) : TabularStore α :=
  toSqlReplace connectMemory df

/-- Model of `SELECT * FROM sales`: the loaded rows. -/
def querySelectAll {α : Type} (st : TabularStore α) : List α := st.sales

/-! ### Helper lemmas -/

lemma data_append (s t : String) : (s ++ t).data = s.data ++ t.data := by
  cases s; cases t; rfl

/-- Read the decimal value back from an order identifier (the characters
after the `"ORD"` tag). -/
def ordVal (s : String) : Nat := parseVal (s.data.drop 3)

lemma ordVal_nl (m : Nat) : ordVal ("ORD" ++ natDecStr m) = m := by
  unfold ordVal
  rw [data_append]
  show parseVal (natDecChars m) = m
  exact parseVal_natDecChars m

lemma ordVal_pad (i : Nat) :
    ordVal ("ORD" ++ (⟨pad5 (natDecChars i)⟩ : String)) = i := by
  unfold ordVal
  rw [data_append]
  show parseVal (pad5 (natDecChars i)) = i
  rw [parseVal_pad5, parseVal_natDecChars]

lemma ordIdNl_inj :
    Function.Injective (fun j : Nat => "ORD" ++ natDecStr (10000 + j)) := by
  intro a b h
  have h2 := congrArg ordVal h
  simp only [ordVal_nl] at h2
  omega

lemma ordIdApp_inj :
    Function.Injective (fun j : Nat => "ORD" ++ (⟨pad5 (natDecChars j)⟩ : String)) := by
  intro a b h
  have h2 := congrArg ordVal h
  simp only [ordVal_pad] at h2
  exact h2

lemma genListNl_length {σ : Type} (g : PRNG σ) :
    ∀ (count i : Nat) (s : σ), ((genListNl g count i s).1).length = count := by
  intro count
  induction count with
  | zero => intro i s; rfl
  | succ k ih => intro i s; simp [genListNl, ih]

lemma genListApp_length {σ : Type} (g : PRNG σ) :
    ∀ (count i : Nat) (s : σ), ((genListApp g count i s).1).length = count := by
  intro count
  induction count with
  | zero => intro i s; rfl
  | succ k ih => intro i s; simp [genListApp, ih]

lemma genListNl_mem {σ : Type} (g : PRNG σ) :
    ∀ (count i : Nat) (s : σ) (r : OrderRecord),
      r ∈ (genListNl g count i s).1 → ∃ j s', r = (genRecordNl g j s').1 := by
  intro count
  induction count with
  | zero => intro i s r h; simp [genListNl] at h
  | succ k ih =>
      intro i s r h
      simp only [genListNl, List.mem_cons] at h
      rcases h with h | h
      · exact ⟨i, s, h⟩
      · exact ih (i + 1) _ r h

lemma genListApp_mem {σ : Type} (g : PRNG σ) :
    ∀ (count i : Nat) (s : σ) (r : OrderRecordApp),
      r ∈ (genListApp g count i s).1 → ∃ j s', r = (genRecordApp g j s').1 := by
  intro count
  induction count with
  | zero => intro i s r h; simp [genListApp] at h
  | succ k ih =>
      intro i s r h
      simp only [genListApp, List.mem_cons] at h
      rcases h with h | h
      · exact ⟨i, s, h⟩
      · exact ih (i + 1) _ r h

lemma genListMvp_mem {σ : Type} (g : PRNG σ) :
    ∀ (count i : Nat) (s : σ) (r : OrderRecordMvp),
      r ∈ (genListMvp g count i s).1 → ∃ j s', r = (genRecordMvp g j s').1 := by
  intro count
  induction count with
  | zero => intro i s r h; simp [genListMvp] at h
  | succ k ih =>
      intro i s r h
      simp only [genListMvp, List.mem_cons] at h
      rcases h with h | h
      · exact ⟨i, s, h⟩
      · exact ih (i + 1) _ r h

lemma genRecordNl_order_id {σ : Type} (g : PRNG σ) (i : Nat) (s : σ) :
    (genRecordNl g i s).1.order_id = "ORD" ++ natDecStr (10000 + i) := rfl

lemma genRecordApp_order_id {σ : Type} (g : PRNG σ) (i : Nat) (s : σ) :
    (genRecordApp g i s).1.order_id
      = "ORD" ++ (⟨pad5 (natDecChars i)⟩ : String) := rfl

lemma genListNl_ids {σ : Type} (g : PRNG σ) :
    ∀ (count i : Nat) (s : σ),
      ((genListNl g count i s).1).map OrderRecord.order_id
        = (List.range' i count).map (fun j => "ORD" ++ natDecStr (10000 + j)) := by
  intro count
  induction count with
  | zero => intro i s; rfl
  | succ k ih =>
      intro i s
      simp [genListNl, List.range'_succ, ih, genRecordNl_order_id]

lemma genListApp_ids {σ : Type} (g : PRNG σ) :
    ∀ (count i : Nat) (s : σ),
      ((genListApp g count i s).1).map OrderRecordApp.order_id
        = (List.range' i count).map
            (fun j => "ORD" ++ (⟨pad5 (natDecChars j)⟩ : String)) := by
  intro count
  induction count with
  | zero => intro i s; rfl
  | succ k ih =>
      intro i s
      simp [genListApp, List.range'_succ, ih, genRecordApp_order_id]

lemma rat_floor_eq_intFloor (a : ℚ) : a.floor = ⌊a⌋ :=
  (Rat.floor_def' a).trans (@Rat.floor_def a).symm

lemma round2_natMul (q : Nat) (u : ℚ) :
    round2 ((q : ℚ) * round2 u) = (q : ℚ) * round2 u := by
  unfold round2
  set k := (u * 100 + 1/2).floor with hk
  have h1 : (q : ℚ) * ((k : ℚ) / 100) * 100 + 1/2
      = (((q : ℤ) * k : ℤ) : ℚ) + 1/2 := by
    push_cast
    ring
  rw [h1]
  have h2 : ((((q : ℤ) * k : ℤ) : ℚ) + 1/2).floor = (q : ℤ) * k := by
    rw [rat_floor_eq_intFloor, add_comm, Int.floor_add_int]
    norm_num
  rw [h2]
  push_cast
  ring

lemma pyUniform_bounds {σ : Type} (g : PRNG σ) (a b : ℚ) (hab : a ≤ b) (s : σ) :
    a ≤ (pyUniform g a b s).1 ∧ (pyUniform g a b s).1 ≤ b := by
  unfold pyUniform
  set v := (g.next s).1 with hv
  have ht0 : (0 : ℚ) ≤ ((v % 1001 : Nat) : ℚ) := by positivity
  have ht1 : ((v % 1001 : Nat) : ℚ) ≤ 1000 := by
    have : v % 1001 < 1001 := Nat.mod_lt _ (by norm_num)
    exact_mod_cast Nat.le_of_lt_succ this
  have hba : (0 : ℚ) ≤ b - a := by linarith
  constructor
  · have : (0 : ℚ) ≤ (b - a) * ((v % 1001 : Nat) : ℚ) / 1000 := by positivity
    simpa using by linarith
  · have hmul : (b - a) * ((v % 1001 : Nat) : ℚ) ≤ (b - a) * 1000 :=
      mul_le_mul_of_nonneg_left ht1 hba
    have hdiv : (b - a) * ((v % 1001 : Nat) : ℚ) / 1000 ≤ (b - a) * 1000 / 1000 := by
      apply div_le_div_of_nonneg_right hmul
      norm_num
    have hsimp : (b - a) * 1000 / 1000 = b - a := by ring
    simp only [hsimp] at hdiv
    simpa using by linarith

lemma startsL_append (p : List Char) :
    ∀ a b : List Char, startsL p a = true → startsL p (a ++ b) = true := by
  induction p with
  | nil => intro a b _; rfl
  | cons c cs ih =>
      intro a b h
      cases a with
      | nil => simp [startsL] at h
      | cons x xs =>
          simp only [startsL, Bool.and_eq_true, beq_iff_eq] at h ⊢
          exact ⟨h.1, ih xs b h.2⟩

lemma sqlTop_ne_empty (l : String) : sqlTop l ≠ "" := by
  intro h
  have h2 : (sqlTop l).data = ("" : String).data := congrArg String.data h
  rw [show (sqlTop l).data = sqlTopStem.data ++ l.data from data_append _ _] at h2
  have h3 : sqlTopStem.data ++ l.data = [] := h2
  have h4 : sqlTopStem.data = [] := (List.append_eq_nil.mp h3).1
  exact absurd h4 (by decide)

lemma startsL_sqlTop (l : String) :
    startsL "SELECT".data (sqlTop l).data = true := by
  rw [show (sqlTop l).data = sqlTopStem.data ++ l.data from data_append _ _]
  exact startsL_append _ _ _ (by decide)

/-! ### Claim theorems -/

/-- C1 (amended): in the translation pipeline of `main` with the AI path
selected, a key configured and the delegate call raising, the translator
falls back to the rule-based algorithm on the same question and reports the
fallback method; with no API key configured the pipeline goes directly to
the rule-based algorithm and reports the plain rule-based method (not the
fallback marker).  In both cases the final SQL equals the rule-based result
and the call returns normally. -/
theorem c1_delegated_fallback (q apiKey e : String) (d : Except String String) :
    (apiKey ≠ "" →
      translateMain q true apiKey (Except.error e)
        = (generate_sql_rule_based q, Method.ruleBasedFallback)) ∧
    translateMain q true "" d = (generate_sql_rule_based q, Method.ruleBased) := by
  constructor
  · intro hk
    have hk' : (apiKey == "") = false := by
      simpa using hk
    simp [translateMain, generate_sql_with_gpt, hk, hk']
  · simp [translateMain]

/-- C1 witness: concrete instantiation of both branches of the fallback
theorem. -/
theorem c1_delegated_fallback_witness :
    ("sk-key" : String) ≠ "" ∧
    translateMain "show profit by category" true "sk-key" (Except.error "boom")
      = (generate_sql_rule_based "show profit by category", Method.ruleBasedFallback) ∧
    translateMain "show profit by category" true "" (Except.ok "SELECT 1")
      = (generate_sql_rule_based "show profit by category", Method.ruleBased) :=
  ⟨by decide,
   (c1_delegated_fallback "show profit by category" "sk-key" "boom"
      (Except.ok "SELECT 1")).1 (by decide),
   (c1_delegated_fallback "show profit by category" "sk-key" "boom"
      (Except.ok "SELECT 1")).2⟩

/-- C1 counterexample: with the AI path selected but no API key configured,
the delegated path yields no SQL, yet the reported method is the plain
rule-based one, not the fallback marker the claim requires. -/
theorem c1_counterexample :
    translateMain "show data" true "" (Except.error "network down")
      = (generate_sql_rule_based "show data", Method.ruleBased) ∧
    Method.ruleBased ≠ Method.ruleBasedFallback :=
  ⟨rfl, by decide⟩

/-- C2 (amended): in `nl2sql_demo.py`'s engine, every question whose
lowercased text contains both "top" and "product" and does not already
match the earlier total-sales/region rule gets the product-aggregation
template whose LIMIT is the integer captured by `top\s+(\d+)` (the digits
following the word "top"), defaulting to "5" — in particular "Top 3
products by quantity" yields SQL containing "LIMIT 3" there.  In `app.py`'s
inline rule chain the same questions get a fixed template hardcoding
LIMIT 5, with no numeric extraction. -/
theorem c2_top_products_limit :
    (∀ q : String,
        (containsB (lowerStr q) "total sales" && containsB (lowerStr q) "region")
            = false →
        containsB (lowerStr q) "top" = true →
        containsB (lowerStr q) "product" = true →
        generate_sql_rule_based q = sqlTop (limitOf (lowerStr q)) ∧
        app_main_rule_sql q = appSqlTop) ∧
    generate_sql_rule_based "Top 3 products by quantity" = sqlTop "3" ∧
    containsB (sqlTop "3") "LIMIT 3" = true ∧
    containsB appSqlTop "LIMIT 5" = true := by
  refine ⟨?_, by decide, by decide, by decide⟩
  intro q h1 h2 h3
  constructor
  · simp [generate_sql_rule_based, h1, h2, h3]
  · simp [app_main_rule_sql, h1, h2, h3]

/-- C2 witness: concrete instantiation of the amended top-products rule in
both files. -/
theorem c2_top_products_limit_witness :
    (containsB (lowerStr "show top 7 products") "total sales"
        && containsB (lowerStr "show top 7 products") "region") = false ∧
    containsB (lowerStr "show top 7 products") "top" = true ∧
    containsB (lowerStr "show top 7 products") "product" = true ∧
    generate_sql_rule_based "show top 7 products"
      = sqlTop (limitOf (lowerStr "show top 7 products")) ∧
    app_main_rule_sql "show top 7 products" = appSqlTop :=
  ⟨by decide, by decide, by decide,
   (c2_top_products_limit.1 "show top 7 products"
      (by decide) (by decide) (by decide)).1,
   (c2_top_products_limit.1 "show top 7 products"
      (by decide) (by decide) (by decide)).2⟩

/-- C2 counterexample: `app.py`'s inline chain translates the claim's own
example "Top 3 products by quantity" to its fixed template, which contains
"LIMIT 5" and not "LIMIT 3"; and in `nl2sql_demo.py`'s engine a question
additionally containing "total sales" and "region" matches the earlier
region rule, yielding SQL with no LIMIT clause at all. -/
theorem c2_counterexample :
    app_main_rule_sql "Top 3 products by quantity" = appSqlTop ∧
    containsB appSqlTop "LIMIT 5" = true ∧
    containsB appSqlTop "LIMIT 3" = false ∧
    generate_sql_rule_based "total sales by region top 3 product" = sqlRegion ∧
    containsB sqlRegion "LIMIT" = false := by
  set_option maxRecDepth 8192 in decide

/-- C3: the keyword rules are tested in order with first match wins, and the
total-sales/region conjunction is tested first, so every question whose
lowercased text contains both "total sales" and "region" yields the
region-aggregation query (SUM of total_sales grouped by region, ordered
descending), whatever other rule keywords appear. -/
theorem c3_region_rule_first (q : String)
    (h1 : containsB (lowerStr q) "total sales" = true)
    (h2 : containsB (lowerStr q) "region" = true) :
    generate_sql_rule_based q = sqlRegion := by
  simp [generate_sql_rule_based, h1, h2]

/-- C3 witness: the region rule fires on a question that also contains other
rule keywords ("top", "product", "trend", "profit", "category"). -/
theorem c3_region_rule_first_witness :
    containsB (lowerStr "total sales by region for top product profit category trend")
        "total sales" = true ∧
    containsB (lowerStr "total sales by region for top product profit category trend")
        "region" = true ∧
    generate_sql_rule_based "total sales by region for top product profit category trend"
      = sqlRegion :=
  ⟨by decide, by decide,
   c3_region_rule_first "total sales by region for top product profit category trend"
     (by decide) (by decide)⟩

/-- C4 (amended): in the `nl2sql_demo.py` generator every record's
`total_sales` and `profit` are computed deterministically from the drawn
quantity, unit price and cost price (`profit =
round((unit_price - cost_price) * quantity, 2)`); in the `app.py` generator
`profit` instead multiplies the drawn quantity and unit price by a freshly
drawn margin factor in [0.2, 0.5] and is therefore not determined by the
already-drawn fields. -/
theorem c4_profit_derivation {σ : Type} (g : PRNG σ) (n : Int) (s : σ) :
    (∀ r ∈ (generate_sales_data g n s).1,
        r.total_sales = round2 ((r.quantity : ℚ) * r.unit_price) ∧
        r.profit = round2 ((r.unit_price - r.cost_price) * (r.quantity : ℚ))) ∧
    (∀ r ∈ (generate_sales_data_app g n s).1,
        ∃ m : ℚ, 1/5 ≤ m ∧ m ≤ 1/2 ∧
          r.profit = round2 ((r.quantity : ℚ) * r.unit_price * m)) := by
  constructor
  · intro r hr
    obtain ⟨j, s', rfl⟩ := genListNl_mem g _ _ _ r hr
    exact ⟨rfl, rfl⟩
  · intro r hr
    obtain ⟨j, s', rfl⟩ := genListApp_mem g _ _ _ r hr
    refine ⟨_, ?_, ?_, rfl⟩
    · exact (pyUniform_bounds g (1/5) (1/2) (by norm_num) _).1
    · exact (pyUniform_bounds g (1/5) (1/2) (by norm_num) _).2

/-- C4 witness: concrete instantiation of the profit invariants on the first
generated record. -/
theorem c4_profit_derivation_witness :
    (genRecordNl (streamPRNG fun _ => 0) 0 0).1
        ∈ (generate_sales_data (streamPRNG fun _ => 0) 1 0).1 ∧
    ((genRecordNl (streamPRNG fun _ => 0) 0 0).1.total_sales
        = round2 (((genRecordNl (streamPRNG fun _ => 0) 0 0).1.quantity : ℚ)
            * (genRecordNl (streamPRNG fun _ => 0) 0 0).1.unit_price) ∧
      (genRecordNl (streamPRNG fun _ => 0) 0 0).1.profit
        = round2 (((genRecordNl (streamPRNG fun _ => 0) 0 0).1.unit_price
              - (genRecordNl (streamPRNG fun _ => 0) 0 0).1.cost_price)
            * ((genRecordNl (streamPRNG fun _ => 0) 0 0).1.quantity : ℚ))) := by
  have hm : (genRecordNl (streamPRNG fun _ => 0) 0 0).1
      ∈ (generate_sales_data (streamPRNG fun _ => 0) 1 0).1 :=
    List.mem_cons_self _ _
  exact ⟨hm, (c4_profit_derivation (streamPRNG fun _ => 0) 1 0).1 _ hm⟩

/-- C4 counterexample: two runs of the `app.py` generator that draw the same
quantity, unit price and total sales nevertheless produce different profit
values (the margin draw differs), so profit is not a deterministic function
of the already-drawn quantity and price. -/
theorem c4_counterexample :
    (generate_sales_data_app (streamPRNG fun _ => 0) 1 0).1.map
        OrderRecordApp.quantity
      = (generate_sales_data_app (streamPRNG fun i => if i == 6 then 1000 else 0)
          1 0).1.map OrderRecordApp.quantity ∧
    (generate_sales_data_app (streamPRNG fun _ => 0) 1 0).1.map
        OrderRecordApp.unit_price
      = (generate_sales_data_app (streamPRNG fun i => if i == 6 then 1000 else 0)
          1 0).1.map OrderRecordApp.unit_price ∧
    (generate_sales_data_app (streamPRNG fun _ => 0) 1 0).1.map
        OrderRecordApp.total_sales
      = (generate_sales_data_app (streamPRNG fun i => if i == 6 then 1000 else 0)
          1 0).1.map OrderRecordApp.total_sales ∧
    (generate_sales_data_app (streamPRNG fun _ => 0) 1 0).1.map
        OrderRecordApp.profit
      ≠ (generate_sales_data_app (streamPRNG fun i => if i == 6 then 1000 else 0)
          1 0).1.map OrderRecordApp.profit := by
  refine ⟨rfl, rfl, rfl, ?_⟩
  with_unfolding_all decide

/-- C5: in every record returned by `generate_sales_data` of
`nl2sql_demo.py`, `total_sales` equals `round(quantity * unit_price, 2)`
exactly at generation time; in every record returned by
`create_sample_data` of `mvp_app.py`, `total_sales` equals
`quantity * price` exactly (which coincides with its two-decimal rounding,
since `price` is already rounded to two decimals).  The embedded generators
are pure, so no later mutation is possible. -/
theorem c5_total_sales_exact {σ : Type} (g : PRNG σ) (n : Int) (s : σ) :
    (∀ r ∈ (generate_sales_data g n s).1,
        r.total_sales = round2 ((r.quantity : ℚ) * r.unit_price)) ∧
    (∀ r ∈ (create_sample_data g n s).1,
        r.total_sales = (r.quantity : ℚ) * r.price ∧
        r.total_sales = round2 ((r.quantity : ℚ) * r.price)) := by
  constructor
  · intro r hr
    obtain ⟨j, s', rfl⟩ := genListNl_mem g _ _ _ r hr
    rfl
  · intro r hr
    simp only [create_sample_data, List.mem_map] at hr
    obtain ⟨r0, hr0, rfl⟩ := hr
    obtain ⟨j, s', rfl⟩ := genListMvp_mem g _ _ _ r0 hr0
    refine ⟨rfl, ?_⟩
    show ((genRecordMvp g j s').1.quantity : ℚ) * (genRecordMvp g j s').1.price
        = round2 (((genRecordMvp g j s').1.quantity : ℚ)
            * (genRecordMvp g j s').1.price)
    have hp : (genRecordMvp g j s').1.price
        = round2 (pyUniform g 100 2000 (pyRandint g 1 5 (pyChoice g
            ["North", "South", "East", "West"] (pyChoice g
              ["Laptop", "Phone", "Tablet", "Monitor"] (pyRandint g 1000 9999
                s').2).2).2).2).1 := rfl
    rw [hp, round2_natMul]

/-- C5 witness: concrete instantiation of the total-sales invariant on the
first record of each generator. -/
theorem c5_total_sales_exact_witness :
    (genRecordNl (streamPRNG fun _ => 0) 0 0).1
        ∈ (generate_sales_data (streamPRNG fun _ => 0) 1 0).1 ∧
    (genRecordNl (streamPRNG fun _ => 0) 0 0).1.total_sales
      = round2 (((genRecordNl (streamPRNG fun _ => 0) 0 0).1.quantity : ℚ)
          * (genRecordNl (streamPRNG fun _ => 0) 0 0).1.unit_price) ∧
    ∀ r ∈ (create_sample_data (streamPRNG fun _ => 0) 1 0).1,
      r.total_sales = (r.quantity : ℚ) * r.price := by
  have hm : (genRecordNl (streamPRNG fun _ => 0) 0 0).1
      ∈ (generate_sales_data (streamPRNG fun _ => 0) 1 0).1 :=
    List.mem_cons_self _ _
  exact ⟨hm, (c5_total_sales_exact (streamPRNG fun _ => 0) 1 0).1 _ hm,
    fun r hr => ((c5_total_sales_exact (streamPRNG fun _ => 0) 1 0).2 r hr).1⟩

/-- C6 (amended): in `nl2sql_demo.py` a call with `row_count ≤ 0` does fail
— with the incidental `KeyError` raised when the date-conversion line reads
the `order_date` column of the empty, column-less DataFrame, not through an
explicit argument check — and for positive row counts the call returns
normally with exactly `row_count` records and no runtime failure.  In
`app.py` (also cited by the claim) the generator has no fallible
post-processing at all: it returns the empty sequence normally for
`row_count ≤ 0` and never fails. -/
theorem c6_row_count_failure {σ : Type} (g : PRNG σ) (n : Int) (s : σ) :
    (n ≤ 0 →
      generate_sales_dataE g n s = Except.error "KeyError: 'order_date'") ∧
    (0 < n →
      generate_sales_dataE g n s = Except.ok (generate_sales_data g n s)) ∧
    generate_sales_data_appE g n s = Except.ok (generate_sales_data_app g n s) ∧
    (n ≤ 0 → (generate_sales_data_app g n s).1 = []) := by
  refine ⟨?_, ?_, rfl, ?_⟩
  · intro hn
    have h0 : n.toNat = 0 := Int.toNat_of_nonpos hn
    have he : (generate_sales_data g n s).1.isEmpty = true := by
      show (genListNl g n.toNat 0 s).1.isEmpty = true
      rw [h0]
      rfl
    simp [generate_sales_dataE, he]
  · intro hn
    have hl : (generate_sales_data g n s).1.length = n.toNat :=
      genListNl_length g _ _ _
    have hne : (generate_sales_data g n s).1 ≠ [] := by
      intro hx
      rw [hx] at hl
      simp only [List.length_nil] at hl
      omega
    have hie : (generate_sales_data g n s).1.isEmpty = false := by
      cases hx : (generate_sales_data g n s).1 with
      | nil => exact absurd hx hne
      | cons a l => rfl
    simp [generate_sales_dataE, hie]
  · intro hn
    have h0 : n.toNat = 0 := Int.toNat_of_nonpos hn
    show (genListApp g n.toNat 0 (g.seedFn 42)).1 = []
    rw [h0]
    rfl

/-- C6 witness: concrete instantiations at row counts `-3` and `2`. -/
theorem c6_row_count_failure_witness :
    ((-3 : Int) ≤ 0) ∧
    generate_sales_dataE (streamPRNG fun i => i) (-3) 0
      = Except.error "KeyError: 'order_date'" ∧
    ((0 : Int) < 2) ∧
    generate_sales_dataE (streamPRNG fun i => i) 2 0
      = Except.ok (generate_sales_data (streamPRNG fun i => i) 2 0) ∧
    generate_sales_data_appE (streamPRNG fun i => i) (-3) 0
      = Except.ok (generate_sales_data_app (streamPRNG fun i => i) (-3) 0) ∧
    (generate_sales_data_app (streamPRNG fun i => i) (-3) 0).1 = [] := by
  have h1 := c6_row_count_failure (streamPRNG fun i => i) (-3) 0
  have h2 := c6_row_count_failure (streamPRNG fun i => i) 2 0
  exact ⟨by decide, h1.1 (by decide), by decide, h2.2.1 (by decide),
    h1.2.2.1, h1.2.2.2 (by decide)⟩

/-- C6 counterexample: `app.py`'s generator (cited by the claim) called
with `row_count = -3 ≤ 0` returns normally with the empty sequence — no
InvalidArgument failure occurs there; and `nl2sql_demo.py`'s failure on the
same input is the pandas KeyError, raised by the date-conversion line
rather than by any validation of the argument. -/
theorem c6_counterexample :
    generate_sales_data_appE (streamPRNG fun i => i) (-3) 0
      = Except.ok ([], 0) ∧
    generate_sales_dataE (streamPRNG fun i => i) (-3) 0
      = Except.error "KeyError: 'order_date'" :=
  ⟨rfl, rfl⟩

/-- C7: the `app.py` generator begins with `random.seed(...)` (literally
seed 42), so the generated sequence is a pure function of the row count and
the seed: whatever prior pseudo-random states `s₁` and `s₂` two calls start
from, the outputs are identical. -/
theorem c7_seeded_determinism {σ : Type} (g : PRNG σ) (seed : Nat) (n : Int)
    (s₁ s₂ : σ) (_h : 0 < n) :
    (generateAppSeeded g seed n s₁).1 = (generateAppSeeded g seed n s₂).1 ∧
    (generate_sales_data_app g n s₁).1 = (generate_sales_data_app g n s₂).1 :=
  ⟨rfl, rfl⟩

/-- C7 witness: concrete instantiation with two distinct prior states. -/
theorem c7_seeded_determinism_witness :
    (0 : Int) < 2 ∧
    (generateAppSeeded (streamPRNG fun i => i) 7 2 0).1
      = (generateAppSeeded (streamPRNG fun i => i) 7 2 5).1 ∧
    (generate_sales_data_app (streamPRNG fun i => i) 2 0).1
      = (generate_sales_data_app (streamPRNG fun i => i) 2 5).1 :=
  ⟨by decide,
   (c7_seeded_determinism (streamPRNG fun i => i) 7 2 0 5 (by decide)).1,
   (c7_seeded_determinism (streamPRNG fun i => i) 7 2 0 5 (by decide)).2⟩

/-- C8: loading a record set replaces any prior table content wholesale
(the embedding of `to_sql(..., if_exists='replace')` on the single `sales`
table, with `setup_database` additionally opening a fresh in-memory
connection): after two loads a query sees exactly the second record set,
with no accumulation of rows from the first. -/
theorem c8_load_replaces {α : Type} (st : TabularStore α) (r₁ r₂ : List α) :
    querySelectAll (toSqlReplace (toSqlReplace st r₁) r₂) = r₂ ∧
    querySelectAll (setup_database r₂) = r₂ :=
  ⟨rfl, rfl⟩

/-- C9: for every positive row count, both embedded generators return
exactly `row_count` records, and the `order_id` values within one generated
set are pairwise distinct (`ORD{10000+i}` resp. `ORD{i:05d}` over distinct
loop indices). -/
theorem c9_row_count_and_unique_ids {σ : Type} (g : PRNG σ) (n : Int) (s : σ)
    (_h : 0 < n) :
    ((generate_sales_data g n s).1.length = n.toNat ∧
      ((generate_sales_data g n s).1.map OrderRecord.order_id).Nodup) ∧
    ((generate_sales_data_app g n s).1.length = n.toNat ∧
      ((generate_sales_data_app g n s).1.map OrderRecordApp.order_id).Nodup) := by
  refine ⟨⟨genListNl_length g _ _ _, ?_⟩, ⟨genListApp_length g _ _ _, ?_⟩⟩
  · show ((genListNl g n.toNat 0 s).1.map OrderRecord.order_id).Nodup
    rw [genListNl_ids]
    exact List.Nodup.map ordIdNl_inj (List.nodup_range' 0 n.toNat)
  · show ((genListApp g n.toNat 0 (g.seedFn 42)).1.map
      OrderRecordApp.order_id).Nodup
    rw [genListApp_ids]
    exact List.Nodup.map ordIdApp_inj (List.nodup_range' 0 n.toNat)

/-- C9 witness: concrete instantiation at row count 2. -/
theorem c9_row_count_and_unique_ids_witness :
    (0 : Int) < 2 ∧
    (generate_sales_data (streamPRNG fun i => i) 2 0).1.length = (2 : Int).toNat ∧
    ((generate_sales_data (streamPRNG fun i => i) 2 0).1.map
      OrderRecord.order_id).Nodup ∧
    (generate_sales_data_app (streamPRNG fun i => i) 2 0).1.length
      = (2 : Int).toNat ∧
    ((generate_sales_data_app (streamPRNG fun i => i) 2 0).1.map
      OrderRecordApp.order_id).Nodup := by
  have h := c9_row_count_and_unique_ids (streamPRNG fun i => i) 2 0 (by decide)
  exact ⟨by decide, h.1.1, h.1.2, h.2.1, h.2.2⟩

/-- C10: for every input string the rule-based translator terminates with a
non-empty SQL string starting with SELECT, drawn from the fixed family of
five read-only templates against the single table `sales` (four
aggregations, the top-products one parameterized only by the extracted
LIMIT value, plus the preview query); the embedded function is total, so no
exception is possible, and no template modifies the table. -/
theorem c10_fixed_query_family (q : String) :
    startsL "SELECT".data (generate_sql_rule_based q).data = true ∧
    generate_sql_rule_based q ≠ "" ∧
    (generate_sql_rule_based q = sqlRegion ∨
     generate_sql_rule_based q = sqlTop (limitOf (lowerStr q)) ∨
     generate_sql_rule_based q = sqlMonthly ∨
     generate_sql_rule_based q = sqlProfit ∨
     generate_sql_rule_based q = sqlPreview) := by
  by_cases h1 : (containsB (lowerStr q) "total sales"
      && containsB (lowerStr q) "region") = true
  · have e : generate_sql_rule_based q = sqlRegion := by
      simp [generate_sql_rule_based, h1]
    rw [e]
    exact ⟨by decide, by decide, Or.inl rfl⟩
  · by_cases h2 : (containsB (lowerStr q) "top"
        && containsB (lowerStr q) "product") = true
    · have e : generate_sql_rule_based q = sqlTop (limitOf (lowerStr q)) := by
        simp [generate_sql_rule_based, h1, h2]
      rw [e]
      exact ⟨startsL_sqlTop _, sqlTop_ne_empty _, Or.inr (Or.inl rfl)⟩
    · by_cases h3 : (containsB (lowerStr q) "monthly"
          || containsB (lowerStr q) "trend") = true
      · have e : generate_sql_rule_based q = sqlMonthly := by
          simp [generate_sql_rule_based, h1, h2, h3]
        rw [e]
        exact ⟨by decide, by decide, Or.inr (Or.inr (Or.inl rfl))⟩
      · by_cases h4 : (containsB (lowerStr q) "profit"
            && containsB (lowerStr q) "category") = true
        · have e : generate_sql_rule_based q = sqlProfit := by
            simp [generate_sql_rule_based, h1, h2, h3, h4]
          rw [e]
          exact ⟨by decide, by decide, Or.inr (Or.inr (Or.inr (Or.inl rfl)))⟩
        · have e : generate_sql_rule_based q = sqlPreview := by
            simp [generate_sql_rule_based, h1, h2, h3, h4]
          rw [e]
          exact ⟨by decide, by decide, Or.inr (Or.inr (Or.inr (Or.inr rfl)))⟩

end NL2SQLDemo
